import Mathlib

/-!
Verification development for the ai-gateway request pipeline.

The definitions below are a shallow embedding of the middleware under
`src/ai-gateway/src/middleware/` (auth gate and optional cache wrapper)
together with the behaviour exercised by the integration tests.  Strings
coming from HTTP headers are modelled as lists of characters so that the
Rust string operations can be reasoned about structurally.  External
collaborators that the middleware merely consults (the keyed hash
`hash_key`, the control-plane key index, the router-organization table,
the sidecar config snapshot) are modelled as components of the
application state.
-/

/-- Deployment target, mirroring `config::DeploymentTarget`. -/
inductive DeploymentTarget where
  | Cloud
  | Sidecar
deriving DecidableEq, Repr

/-- Request kind extension, mirroring `types::extensions::RequestKind`.
The `Router` variant carries no payload in the source; the router id
travels in a separate request extension. -/
inductive RequestKind where
  | Router
  | UnifiedApi
  | DirectProxy
deriving DecidableEq, Repr

/-- Auth error taxonomy, mirroring `error::auth::AuthError`. -/
inductive AuthError where
  | MissingAuthorizationHeader
  | InvalidCredentials
  | RouterNotFound
  | ProviderKeyNotFound
deriving DecidableEq, Repr

/-- A key snapshot as consumed by the auth gate: owner and organization
of a stored API key (`ApiKeySnapshot` of the data model). -/
structure HeliconeApiKey where
  ownerId : String
  organizationId : String
deriving DecidableEq, Repr

/-- The auth context attached to the request on success, mirroring
`types::extensions::AuthContext`.  The `Secret` wrapper and the typed id
conversions (`try_into`) are modelled as plain values. -/
structure AuthContext where
  apiKey : List Char
  userId : String
  orgId : String
deriving DecidableEq, Repr

/-- Tests whether the first list is a leading segment of the second. -/
def leadsWith : List Char → List Char → Bool
  | [], _ => true
  | _ :: _, [] => false
  | p :: ps, c :: cs => p == c && leadsWith ps cs

/-- Worker for `removeAll`: scans the list left to right; while the skip
counter is positive the characters of an already-matched occurrence are
consumed without being emitted; at skip 0 a fresh match of `pat` starts a
new skip of `pat.length` characters and emits nothing. -/
def removeAllAux (pat : List Char) : List Char → Nat → List Char
  | [], _ => []
  | _ :: cs, Nat.succ k => removeAllAux pat cs k
  | c :: cs, 0 =>
    if leadsWith pat (c :: cs) && !pat.isEmpty then
      removeAllAux pat cs (pat.length - 1)
    else
      c :: removeAllAux pat cs 0

/-- Removes every non-overlapping occurrence of `pat`, scanning left to
right: the behaviour of Rust `str::replace(pat, "")` for a non-empty
pattern. -/
def removeAll (pat s : List Char) : List Char :=
  removeAllAux pat s 0

/-- The credential actually hashed by the auth gate: the source computes
`api_key.replace("Bearer ", "")` (auth.rs line 35), i.e. it removes every
occurrence of the substring. -/
def authStripCredential (apiKey : List Char) : List Char :=
  removeAll (String.toList "Bearer ") apiKey

/-- A pattern occurs as a contiguous segment somewhere in the list. -/
def containsSeq (pat : List Char) : List Char → Bool
  | [] => leadsWith pat []
  | c :: cs => leadsWith pat (c :: cs) || containsSeq pat cs

/-- Association-list lookup by string key. -/
def assocFind {α : Type} : List (String × α) → String → Option α
  | [], _ => none
  | (k, v) :: rest, h => if k = h then some v else assocFind rest h

/-- Application state as seen by the auth middleware.  The keyed hash
`hash_key` and the three lookup sources are external to the middleware
and are modelled as state components: `heliconeApiKeys` is the cloud
in-memory key index (`check_helicone_api_key`), `routerOrgs` the router
to organization table (`get_router_organization`), `sidecarKeys` and
`sidecarOrgId` the sidecar config snapshot (`get_key_from_hash` and
`config.auth.organization_id`), and `authDisabled` the result of
`config.helicone.is_auth_disabled()`. -/
structure AppState where
  deploymentTarget : DeploymentTarget
  hashKey : List Char → String
  heliconeApiKeys : List (String × HeliconeApiKey)
  routerOrgs : List (String × String)
  sidecarKeys : List (String × HeliconeApiKey)
  sidecarOrgId : String
  authDisabled : Bool

/-- Cloud key-index lookup, modelling `AppState::check_helicone_api_key`. -/
def checkHeliconeApiKey (st : AppState) (hash : String) : Option HeliconeApiKey :=
  assocFind st.heliconeApiKeys hash

/-- Router-organization lookup, modelling `AppState::get_router_organization`. -/
def getRouterOrganization (st : AppState) (routerId : String) : Option String :=
  assocFind st.routerOrgs routerId

/-- Sidecar config key lookup, modelling `Config::get_key_from_hash`. -/
def getKeyFromHash (st : AppState) (hash : String) : Option HeliconeApiKey :=
  assocFind st.sidecarKeys hash

/-- Shallow embedding of `AuthService::authenticate_request_inner`
(auth.rs lines 29-101), branching on the deployment target exactly as the
source does. -/
def authenticateRequestInner (st : AppState) (apiKey : List Char)
    (requestKind : Option RequestKind) (routerId : Option String) :
    Except AuthError AuthContext :=
  let apiKeyWithoutBearer := authStripCredential apiKey
  let computedHash := st.hashKey apiKeyWithoutBearer
  match st.deploymentTarget with
  | .Cloud =>
    match checkHeliconeApiKey st computedHash, requestKind with
    | some key, some rk =>
      match rk with
      | .Router =>
        match routerId with
        | some rid =>
          match getRouterOrganization st rid with
          | some routerOrganizationId =>
            if key.organizationId = routerOrganizationId then
              .ok { apiKey := apiKeyWithoutBearer
                    userId := key.ownerId
                    orgId := key.organizationId }
            else
              .error .InvalidCredentials
          | none => .error .RouterNotFound
        | none => .error .RouterNotFound
      | .UnifiedApi | .DirectProxy =>
        .ok { apiKey := apiKeyWithoutBearer
              userId := key.ownerId
              orgId := key.organizationId }
    | _, _ => .error .InvalidCredentials
  | .Sidecar =>
    match getKeyFromHash st computedHash with
    | some key =>
      .ok { apiKey := apiKeyWithoutBearer
            userId := key.ownerId
            orgId := st.sidecarOrgId }
    | none => .error .InvalidCredentials

/-- The auth metrics counters touched by the gate. -/
structure Metrics where
  authAttempts : Nat
  authRejections : Nat
deriving DecidableEq, Repr

/-- The request as seen by the auth gate: the authorization header (none
when the header is absent or not valid UTF-8), the two extensions read
by the gate, and the auth-context extension it may write. -/
structure GateRequest where
  authorizationHeader : Option (List Char)
  requestKind : Option RequestKind
  routerId : Option String
  authContext : Option AuthContext
deriving DecidableEq, Repr

/-- Shallow embedding of `AsyncAuthorizeRequest::authorize` for
`AuthService` (auth.rs lines 116-163): the disabled short-circuit, the
missing-header rejection (which precedes the `auth_attempts` increment),
the attempt counter, the call to the inner authenticator, the rejection
counter on every error variant, and the context insertion on success. -/
def authorize (st : AppState) (m : Metrics) (req : GateRequest) :
    Except AuthError GateRequest × Metrics :=
  if st.authDisabled then
    (.ok req, m)
  else
    match req.authorizationHeader with
    | none => (.error .MissingAuthorizationHeader, m)
    | some apiKey =>
      let m1 : Metrics := { m with authAttempts := m.authAttempts + 1 }
      match authenticateRequestInner st apiKey req.requestKind req.routerId with
      | .ok authCtx =>
        (.ok { req with authContext := some authCtx }, m1)
      | .error e =>
        (.error e, { m1 with authRejections := m1.authRejections + 1 })

/-- Feeds a list of requests through the auth gate, threading the
metrics and discarding the per-request outcomes. -/
def runGate (st : AppState) : List GateRequest → Metrics → Metrics
  | [], m => m
  | r :: rs, m => runGate st rs (authorize st m r).2

/-- A response flowing through the cache layer: status code, header
list (front entries shadow later ones) and body bytes. -/
structure Resp where
  status : Nat
  headers : List (String × String)
  body : List Nat
deriving DecidableEq, Repr

/-- The request seen by the cache layer: the canonicalized components
(method, url path, whitelisted headers, body bytes) plus the parsed
`Cache-Control: max-age=N` directive. -/
structure CReq where
  method : String
  path : String
  headers : List (String × String)
  body : List Nat
  cacheControlMaxAge : Option Nat
deriving DecidableEq, Repr

/-- An inner tower service, observationally: a request to response map. -/
abbrev InnerSvc : Type := CReq → Resp

/-- Stand-in for the external `CacheLayer` (`middleware::cache::service`,
outside src/): all the optional wrapper needs from it is that `layer`
wraps an inner service into a cache service. -/
structure CacheLayerModel where
  wrap : InnerSvc → InnerSvc

/-- Shallow embedding of `middleware::cache::optional::Layer`
(optional.rs lines 16-19): an optional inner `CacheLayer`. -/
structure OptCacheLayer where
  inner : Option CacheLayerModel

/-- Constructor `Layer::disabled` (optional.rs lines 40-44). -/
def OptCacheLayer.disabled : OptCacheLayer :=
  { inner := none }

/-- Shallow embedding of `middleware::cache::optional::Service`
(optional.rs lines 61-65): either the cache-wrapped service or the bare
inner service. -/
inductive OptCacheService where
  | Enabled (service : InnerSvc)
  | Disabled (service : InnerSvc)

/-- The `tower::Layer` impl for the optional layer (optional.rs lines
47-59): a present inner `CacheLayer` wraps the service into the
`Enabled` variant, an absent one yields the `Disabled` variant. -/
def OptCacheLayer.layer (l : OptCacheLayer) (service : InnerSvc) : OptCacheService :=
  match l.inner with
  | some cacheLayer => .Enabled (cacheLayer.wrap service)
  | none => .Disabled service

/-- The `tower::Service::call` impl for the optional service (optional.rs lines
121-135): each variant forwards the request to its stored service; the
`Disabled` arm performs no other work (the `Infallible` error mapping of
the response future never fires). -/
def OptCacheService.call : OptCacheService → CReq → Resp
  | .Enabled service, req => service req
  | .Disabled service, req => service req

/-- Cache key scope: per-router (with optional seed), unified API, or
direct proxy, as in the data-model `CacheEntry` description. -/
inductive CacheScope where
  | router (id : String) (seed : Option String)
  | unifiedApi
  | directProxy (provider : String)
deriving DecidableEq, Repr

/-- Fingerprint values: scope paired with the canonical request
components. -/
abbrev Fingerprint : Type :=
  CacheScope × String × String × List (String × String) × List Nat

/-- Modelled from the spec: the cache fingerprint
`H(scope || canonicalized_request)` of section 4.3; the hash itself is
external, so the fingerprint is modelled as the injective canonical
form (scope paired with the canonical request components). -/
def fingerprint (scope : CacheScope) (req : CReq) : Fingerprint :=
  (scope, req.method, req.path, req.headers, req.body)

/-- A stored cache entry (`CacheEntry` of the data model): response
parts plus the storage instant and TTL, in abstract time units. -/
structure CacheEntry where
  status : Nat
  headers : List (String × String)
  body : List Nat
  storedAt : Nat
  ttl : Nat
deriving DecidableEq, Repr

/-- The cache store: an association list from fingerprints to entries,
newest first. -/
abbrev CacheStore : Type := List (Fingerprint × CacheEntry)

/-- Raw store lookup by fingerprint. -/
def storeFind : CacheStore → Fingerprint → Option CacheEntry
  | [], _ => none
  | (k, v) :: rest, fp => if k = fp then some v else storeFind rest fp

/-- Prepends a response header. -/
def addHeader (r : Resp) (n v : String) : Resp :=
  { r with headers := (n, v) :: r.headers }

/-- Reads the first entry with the given name in a header list. -/
def findHeader : List (String × String) → String → Option String
  | [], _ => none
  | (k, v) :: rest, n => if k = n then some v else findHeader rest n

/-- Reads the first response header with the given name. -/
def getHeader (r : Resp) (n : String) : Option String :=
  findHeader r.headers n

/-- Modelled from the spec: `lookup(fingerprint)` of section 4.3 — a
stored entry is returned only while unexpired; entries are dead once
`now - stored_at > ttl`. -/
def cacheLookup (store : CacheStore) (now : Nat) (fp : Fingerprint) :
    Option CacheEntry :=
  match storeFind store fp with
  | some e => if now - e.storedAt ≤ e.ttl then some e else none
  | none => none

/-- Modelled from the spec: one pass of the active cache service
(section 4.3, `lookup`/`store`; the concrete `CacheService` lives
outside src/).  A fresh hit returns the stored response with
`helicone-cache: HIT`; a miss forwards to the upstream, tags the
response `helicone-cache: MISS`, and stores it with the TTL taken from
the `max-age` directive (falling back to the configured default) when
the status is a success. -/
def cacheStep (upstream : CReq → Resp) (defaultTtl : Nat) (scope : CacheScope)
    (store : CacheStore) (now : Nat) (req : CReq) : Resp × CacheStore :=
  let fp := fingerprint scope req
  match cacheLookup store now fp with
  | some e =>
    (addHeader { status := e.status, headers := e.headers, body := e.body }
      "helicone-cache" "HIT", store)
  | none =>
    let resp := upstream req
    let ttl := match req.cacheControlMaxAge with
      | some n => n
      | none => defaultTtl
    let store2 :=
      if 200 ≤ resp.status ∧ resp.status < 300 then
        (fp, { status := resp.status, headers := resp.headers,
               body := resp.body, storedAt := now, ttl := ttl }) :: store
      else
        store
    (addHeader resp "helicone-cache" "MISS", store2)

/-- Inference providers appearing in the load-balance tests. -/
inductive Provider where
  | openai
  | anthropic
deriving DecidableEq, Repr

/-- Provider health state of the data model:
`state ∈ {Healthy, Ejected{until: instant}}`; the `until` instant is
the `deadline` argument of the `Ejected` constructor. -/
inductive ProviderState where
  | Healthy
  | Ejected (deadline : Nat)
deriving DecidableEq, Repr

/-- One pool member: provider, weight and health state (weights are
modelled as naturals; the tests use equal weights). -/
structure PoolEntry where
  provider : Provider
  weight : Nat
  state : ProviderState
deriving DecidableEq, Repr

/-- A provider pool for one (router, endpoint type) pair. -/
abbrev Pool : Type := List PoolEntry

/-- Modelled from the spec: selection filters to Healthy providers only
(section 4.4 step 1; the balancer itself lives outside src/). -/
def healthyEntries (pool : Pool) : Pool :=
  pool.filter (fun e => e.state = ProviderState.Healthy)

/-- Total weight of a pool. -/
def totalWeight (pool : Pool) : Nat :=
  pool.foldr (fun e acc => e.weight + acc) 0

/-- Weight-proportional draw: walks the entries in insertion order,
subtracting weights from the draw until it lands inside an entry. -/
def pickWeighted : Pool → Nat → Option Provider
  | [], _ => none
  | e :: rest, r => if r < e.weight then some e.provider else pickWeighted rest (r - e.weight)

/-- Modelled from the spec: balancer selection (section 4.4): filter to
Healthy entries, fail fast when none remain or all weights vanish,
otherwise draw weight-proportionally with ties broken by insertion
order. `r` is the random draw. -/
def select (pool : Pool) (r : Nat) : Option Provider :=
  let hs := healthyEntries pool
  if totalWeight hs = 0 then none
  else pickWeighted hs (r % totalWeight hs)

/-- Modelled from the spec: the monitor applying a `RateLimitSignal`
(section 4.5 step 1): the named provider becomes
`Ejected{until: now + retry_after}`, and an already-ejected provider
keeps the later of the two deadlines. -/
def applySignal (pool : Pool) (p : Provider) (deadline : Nat) : Pool :=
  pool.map fun e =>
    if e.provider = p then
      { e with state :=
          match e.state with
          | .Healthy => .Ejected deadline
          | .Ejected u => .Ejected (Nat.max u deadline) }
    else e

/-- Modelled from the spec: the re-admit timer firing on one entry
(section 4.5 step 2): an entry whose deadline has passed returns to
Healthy; a live deadline is left untouched. -/
def readmitEntry (now : Nat) (e : PoolEntry) : PoolEntry :=
  match e.state with
  | .Ejected u => if u ≤ now then { e with state := .Healthy } else e
  | .Healthy => e

/-- The monitor re-admitting every due provider of a pool at `now`. -/
def readmit (pool : Pool) (now : Nat) : Pool :=
  pool.map (readmitEntry now)

/-- State of the sequential rate-limit scenario: the pool plus how many
requests each provider has served. -/
structure SimState where
  pool : Pool
  openaiHits : Nat
  anthropicHits : Nat
deriving Repr

/-- Modelled from the spec: one request of the scenario of test
`rate_limit_removes_provider_from_lb_pool` (the monitor lives outside
src/).  The balancer draws a provider with randomness `r`; the OpenAI
stub answers 429 with `Retry-After: 2`, so a request reaching OpenAI
emits a signal that the monitor turns into an ejection until instant 2;
the Anthropic stub serves every request sent to it; all 20 requests
complete before the deadline, so no re-admit happens inside the
window. -/
def stepReq (st : SimState) (r : Nat) : SimState :=
  match select st.pool r with
  | some .openai =>
    { pool := applySignal st.pool .openai 2
      openaiHits := st.openaiHits + 1
      anthropicHits := st.anthropicHits }
  | some .anthropic => { st with anthropicHits := st.anthropicHits + 1 }
  | none => st

/-- Runs the scenario over a list of random draws. -/
def runReqs : SimState → List Nat → SimState
  | st, [] => st
  | st, r :: rs => runReqs (stepReq st r) rs

/-- The test pool: OpenAI and Anthropic, equal weights, both healthy. -/
def scenarioPool : Pool :=
  [ { provider := .openai, weight := 1, state := .Healthy },
    { provider := .anthropic, weight := 1, state := .Healthy } ]

/-- The test pool after the monitor processed the 429 signal: OpenAI
ejected until instant 2, Anthropic still healthy. -/
def ejectedPool : Pool :=
  [ { provider := .openai, weight := 1, state := .Ejected 2 },
    { provider := .anthropic, weight := 1, state := .Healthy } ]

/-- The scenario start: the healthy pool, no requests served yet. -/
def scenarioStart : SimState :=
  { pool := scenarioPool, openaiHits := 0, anthropicHits := 0 }

/-- The reachable states of the scenario: either OpenAI has never been
drawn and the pool is untouched, or it has been drawn exactly once and
is ejected. -/
def scenarioInv (st : SimState) : Prop :=
  (st.pool = scenarioPool ∧ st.openaiHits = 0)
    ∨ (st.pool = ejectedPool ∧ st.openaiHits = 1)

/-- A stored key for the concrete cloud fixtures. -/
def key1 : HeliconeApiKey :=
  { ownerId := "user-1", organizationId := "org-a" }

/-- Concrete cloud-deployment state: one stored key (owned by org-a),
one router of org-a and one router of org-b.  The external keyed hash
is instantiated with the injective packing of characters into a
string. -/
def cloudState : AppState :=
  { deploymentTarget := .Cloud
    hashKey := fun cs => String.mk cs
    heliconeApiKeys := [("goodkey", key1)]
    routerOrgs := [("my-router", "org-a"), ("other-router", "org-b")]
    sidecarKeys := []
    sidecarOrgId := "org-side"
    authDisabled := false }

/-- Concrete sidecar-deployment state: one locally configured key and a
process-global organization id. -/
def sidecarState : AppState :=
  { deploymentTarget := .Sidecar
    hashKey := fun cs => String.mk cs
    heliconeApiKeys := []
    routerOrgs := []
    sidecarKeys := [("sk-local", { ownerId := "user-2", organizationId := "org-x" })]
    sidecarOrgId := "org-sidecar"
    authDisabled := false }

/-- Scenario-6 request (a): no Authorization header. -/
def reqMissingHeader : GateRequest :=
  { authorizationHeader := none
    requestKind := some .Router
    routerId := some "my-router"
    authContext := none }

/-- Scenario-6 request (b): bearer token with an unknown key. -/
def reqUnknownKey : GateRequest :=
  { authorizationHeader := some (String.toList "Bearer unknown")
    requestKind := some .Router
    routerId := some "my-router"
    authContext := none }

/-- Scenario-6 request (c): valid key, router of a different org. -/
def reqWrongOrg : GateRequest :=
  { authorizationHeader := some (String.toList "Bearer goodkey")
    requestKind := some .Router
    routerId := some "other-router"
    authContext := none }

/-- Scenario-6 request (d): valid key, nonexistent router id. -/
def reqGhostRouter : GateRequest :=
  { authorizationHeader := some (String.toList "Bearer goodkey")
    requestKind := some .Router
    routerId := some "ghost"
    authContext := none }

/-- The auth context produced by the cloud branch on success. -/
def cloudCtx (key : HeliconeApiKey) (apiKey : List Char) : AuthContext :=
  { apiKey := authStripCredential apiKey
    userId := key.ownerId
    orgId := key.organizationId }

/-- C1: in Cloud deployment, a Router request with a router id and a
known key succeeds (with the context built from the key) iff the router
organization exists and equals the key organization; a missing router
organization yields RouterNotFound, a differing one yields
InvalidCredentials, an unknown key hash yields InvalidCredentials, and
UnifiedApi and DirectProxy requests perform no router check. -/
theorem C1_cloud_router_auth (st : AppState) (apiKey : List Char) (rid : String)
    (key : HeliconeApiKey) (hC : st.deploymentTarget = .Cloud) :
    (checkHeliconeApiKey st (st.hashKey (authStripCredential apiKey)) = some key →
      ((authenticateRequestInner st apiKey (some .Router) (some rid) =
          .ok (cloudCtx key apiKey)
          ↔ getRouterOrganization st rid = some key.organizationId)
        ∧ (getRouterOrganization st rid = none →
            authenticateRequestInner st apiKey (some .Router) (some rid) =
              .error .RouterNotFound)
        ∧ (∀ org, getRouterOrganization st rid = some org →
            org ≠ key.organizationId →
            authenticateRequestInner st apiKey (some .Router) (some rid) =
              .error .InvalidCredentials)
        ∧ (∀ rid2 : Option String,
            authenticateRequestInner st apiKey (some .UnifiedApi) rid2 =
              .ok (cloudCtx key apiKey)
            ∧ authenticateRequestInner st apiKey (some .DirectProxy) rid2 =
              .ok (cloudCtx key apiKey))))
    ∧ (checkHeliconeApiKey st (st.hashKey (authStripCredential apiKey)) = none →
        ∀ (rk : RequestKind) (rid2 : Option String),
          authenticateRequestInner st apiKey (some rk) rid2 =
            .error .InvalidCredentials) := by
  constructor
  · intro hKey
    refine ⟨?_, ?_, ?_, ?_⟩
    · cases hOrg : getRouterOrganization st rid with
      | none => simp [authenticateRequestInner, hC, hKey, hOrg, cloudCtx]
      | some org =>
        by_cases h : key.organizationId = org
        · subst h
          simp [authenticateRequestInner, hC, hKey, hOrg, cloudCtx]
        · simp only [authenticateRequestInner, hC, hKey, hOrg, cloudCtx]
          rw [if_neg h]
          constructor
          · intro hcontra
            exact absurd hcontra (by simp)
          · intro hcontra
            injection hcontra with hh
            exact absurd hh.symm h
    · intro hOrg
      simp [authenticateRequestInner, hC, hKey, hOrg]
    · intro org hOrg hNe
      simp only [authenticateRequestInner, hC, hKey, hOrg]
      rw [if_neg (fun hh => hNe hh.symm)]
    · intro rid2
      constructor <;> simp [authenticateRequestInner, hC, hKey, cloudCtx]
  · intro hNone rk rid2
    simp [authenticateRequestInner, hC, hNone]

/-- C1 witness: the concrete cloud state at the stored key. -/
theorem C1_cloud_router_auth_witness :
    authenticateRequestInner cloudState (String.toList "Bearer goodkey")
      (some .Router) (some "my-router") = .ok (cloudCtx key1 (String.toList "Bearer goodkey")) :=
  ((C1_cloud_router_auth cloudState (String.toList "Bearer goodkey") "my-router" key1
    rfl).1 rfl).1.mpr rfl

/-- C5: in Sidecar deployment a matching hashed key yields a context
whose org id is the process-global config field and whose user id is the
matched key owner; no match yields InvalidCredentials. -/
theorem C5_sidecar_auth (st : AppState) (apiKey : List Char)
    (rk : Option RequestKind) (rid : Option String)
    (hS : st.deploymentTarget = .Sidecar) :
    (∀ key, getKeyFromHash st (st.hashKey (authStripCredential apiKey)) = some key →
      authenticateRequestInner st apiKey rk rid =
        .ok { apiKey := authStripCredential apiKey
              userId := key.ownerId
              orgId := st.sidecarOrgId })
    ∧ (getKeyFromHash st (st.hashKey (authStripCredential apiKey)) = none →
      authenticateRequestInner st apiKey rk rid = .error .InvalidCredentials) := by
  constructor
  · intro key hKey
    simp [authenticateRequestInner, hS, hKey]
  · intro hNone
    simp [authenticateRequestInner, hS, hNone]

/-- C5 witness: the concrete sidecar state at the stored key and at an
unknown key. -/
theorem C5_sidecar_auth_witness :
    authenticateRequestInner sidecarState (String.toList "Bearer sk-local")
      (some .UnifiedApi) none =
      .ok { apiKey := String.toList "sk-local", userId := "user-2", orgId := "org-sidecar" }
    ∧ authenticateRequestInner sidecarState (String.toList "nope") none none =
      .error .InvalidCredentials :=
  ⟨(C5_sidecar_auth sidecarState (String.toList "Bearer sk-local")
      (some .UnifiedApi) none rfl).1 _ rfl,
   (C5_sidecar_auth sidecarState (String.toList "nope") none none rfl).2 rfl⟩

/-- C6: when global configuration disables auth the gate returns the
request unchanged with the metrics untouched and never rejects, even
without an Authorization header. -/
theorem C6_auth_disabled_bypasses_gate (st : AppState) (m : Metrics)
    (req : GateRequest) (h : st.authDisabled = true) :
    authorize st m req = (.ok req, m) := by
  simp [authorize, h]

/-- C6 witness: a disabled-auth state on a header-less request. -/
theorem C6_auth_disabled_bypasses_gate_witness :
    authorize { cloudState with authDisabled := true } ⟨0, 0⟩ reqMissingHeader =
      (.ok reqMissingHeader, ⟨0, 0⟩) :=
  C6_auth_disabled_bypasses_gate { cloudState with authDisabled := true }
    ⟨0, 0⟩ reqMissingHeader rfl

/-- C7: the optional cache wrapper built with `Layer::disabled` yields
the Disabled variant, and the Disabled service forwards every request to
the wrapped inner service and returns its response unchanged, headers
included, with the active or inactive choice fixed at construction. -/
theorem C7_disabled_cache_is_identity :
    ∀ (s : InnerSvc) (req : CReq),
      OptCacheLayer.layer OptCacheLayer.disabled s = OptCacheService.Disabled s
      ∧ OptCacheService.call (OptCacheLayer.layer OptCacheLayer.disabled s) req = s req
      ∧ (OptCacheService.call (OptCacheLayer.layer OptCacheLayer.disabled s) req).headers
          = (s req).headers :=
  fun _ _ => ⟨rfl, rfl, rfl⟩

/-- C10: in Cloud deployment a request without a RequestKind extension
is rejected with InvalidCredentials even when the key hash is known. -/
theorem C10_missing_request_kind_rejected (st : AppState) (apiKey : List Char)
    (rid : Option String) (key : HeliconeApiKey)
    (hC : st.deploymentTarget = .Cloud)
    (hKey : checkHeliconeApiKey st (st.hashKey (authStripCredential apiKey)) = some key) :
    authenticateRequestInner st apiKey none rid = .error .InvalidCredentials := by
  simp [authenticateRequestInner, hC, hKey]

/-- C10 witness: the concrete cloud state, known key, no request kind. -/
theorem C10_missing_request_kind_rejected_witness :
    authenticateRequestInner cloudState (String.toList "Bearer goodkey")
      none (some "my-router") = .error .InvalidCredentials :=
  C10_missing_request_kind_rejected cloudState (String.toList "Bearer goodkey")
    (some "my-router") key1 rfl rfl

/-- C2 counterexample: a request without an Authorization header is
rejected before either counter is touched, so auth_attempts is not
incremented and the four scenario-6 requests raise the counters by 3,
not 4. -/
theorem C2_counterexample_missing_header_not_counted :
    authorize cloudState ⟨0, 0⟩ reqMissingHeader =
      (.error .MissingAuthorizationHeader, ⟨0, 0⟩)
    ∧ (authorize cloudState ⟨0, 0⟩ reqMissingHeader).2.authAttempts ≠ 0 + 1
    ∧ runGate cloudState
        [reqMissingHeader, reqUnknownKey, reqWrongOrg, reqGhostRouter] ⟨0, 0⟩ ≠
        ⟨4, 4⟩ :=
  ⟨rfl, by decide, by decide⟩

/-- C2 amended: with auth enabled, auth_attempts is incremented exactly
once for every request that carries an Authorization header; a request
without one is rejected with MissingAuthorizationHeader and touches
neither counter; auth_rejections is incremented exactly once on every
failure of the inner authenticator and stays unchanged on success; the
four scenario-6 requests raise auth_attempts by 3 and auth_rejections
by 3. -/
theorem C2_amended_metrics :
    (∀ (st : AppState) (m : Metrics) (req : GateRequest) (k : List Char),
        st.authDisabled = false → req.authorizationHeader = some k →
        (authorize st m req).2.authAttempts = m.authAttempts + 1)
    ∧ (∀ (st : AppState) (m : Metrics) (req : GateRequest) (k : List Char)
          (e : AuthError),
        st.authDisabled = false → req.authorizationHeader = some k →
        (authorize st m req).1 = .error e →
        (authorize st m req).2.authRejections = m.authRejections + 1)
    ∧ (∀ (st : AppState) (m : Metrics) (req : GateRequest) (k : List Char)
          (r : GateRequest),
        st.authDisabled = false → req.authorizationHeader = some k →
        (authorize st m req).1 = .ok r →
        (authorize st m req).2.authRejections = m.authRejections)
    ∧ (∀ (st : AppState) (m : Metrics) (req : GateRequest),
        st.authDisabled = false → req.authorizationHeader = none →
        authorize st m req = (.error .MissingAuthorizationHeader, m))
    ∧ runGate cloudState
        [reqMissingHeader, reqUnknownKey, reqWrongOrg, reqGhostRouter] ⟨0, 0⟩ =
        ⟨3, 3⟩ := by
  refine ⟨?_, ?_, ?_, ?_, rfl⟩
  · intro st m req k hd hh
    simp only [authorize, hd, Bool.false_eq_true, if_false, hh]
    cases authenticateRequestInner st k req.requestKind req.routerId <;> rfl
  · intro st m req k e hd hh hok
    simp only [authorize, hd, Bool.false_eq_true, if_false, hh] at hok ⊢
    cases hmatch : authenticateRequestInner st k req.requestKind req.routerId with
    | ok ctx => rw [hmatch] at hok; exact absurd hok (by simp)
    | error e2 => rfl
  · intro st m req k r hd hh hok
    simp only [authorize, hd, Bool.false_eq_true, if_false, hh] at hok ⊢
    cases hmatch : authenticateRequestInner st k req.requestKind req.routerId with
    | ok ctx => rfl
    | error e2 => rw [hmatch] at hok; exact absurd hok (by simp)
  · intro st m req hd hh
    simp [authorize, hd, hh]

/-- C2 amended witness: the concrete cloud state at scenario requests. -/
theorem C2_amended_metrics_witness :
    (authorize cloudState ⟨0, 0⟩ reqUnknownKey).2.authAttempts = 0 + 1
    ∧ (authorize cloudState ⟨0, 0⟩ reqUnknownKey).2.authRejections = 0 + 1
    ∧ authorize cloudState ⟨0, 0⟩ reqMissingHeader =
        (.error .MissingAuthorizationHeader, ⟨0, 0⟩) :=
  ⟨C2_amended_metrics.1 cloudState ⟨0, 0⟩ reqUnknownKey
      (String.toList "Bearer unknown") rfl rfl,
   C2_amended_metrics.2.1 cloudState ⟨0, 0⟩ reqUnknownKey
      (String.toList "Bearer unknown") .InvalidCredentials rfl rfl rfl,
   C2_amended_metrics.2.2.2.1 cloudState ⟨0, 0⟩ reqMissingHeader rfl rfl⟩

/-- C4 counterexample: in Sidecar deployment a Router request with an
id matching no configured router authenticates successfully when the
key is known (no router check is made), and in Cloud deployment the
same unknown-router request with an unknown key yields
InvalidCredentials — in neither case the claimed RouterNotFound. -/
theorem C4_counterexample_sidecar_no_router_check :
    authenticateRequestInner sidecarState (String.toList "Bearer sk-local")
      (some .Router) (some "ghost") =
      .ok { apiKey := String.toList "sk-local", userId := "user-2", orgId := "org-sidecar" }
    ∧ authenticateRequestInner sidecarState (String.toList "Bearer sk-local")
      (some .Router) (some "ghost") ≠ .error .RouterNotFound
    ∧ authenticateRequestInner cloudState (String.toList "Bearer unknown")
      (some .Router) (some "ghost") = .error .InvalidCredentials :=
  ⟨rfl, fun h => Except.noConfusion h, rfl⟩

/-- C4 amended: in Cloud deployment, a Router request with a known key
whose id matches no configured router fails with the distinct error
RouterNotFound; in Sidecar deployment no router check is performed at
all — the outcome is independent of the request kind and router id. -/
theorem C4_amended_router_not_found :
    (∀ (st : AppState) (apiKey : List Char) (rid : String) (key : HeliconeApiKey),
        st.deploymentTarget = .Cloud →
        checkHeliconeApiKey st (st.hashKey (authStripCredential apiKey)) = some key →
        getRouterOrganization st rid = none →
        authenticateRequestInner st apiKey (some .Router) (some rid) =
          .error .RouterNotFound)
    ∧ (∀ (st : AppState) (apiKey : List Char) (rk1 rk2 : Option RequestKind)
          (rid1 rid2 : Option String),
        st.deploymentTarget = .Sidecar →
        authenticateRequestInner st apiKey rk1 rid1 =
          authenticateRequestInner st apiKey rk2 rid2) := by
  constructor
  · intro st apiKey rid key hC hKey hOrg
    simp [authenticateRequestInner, hC, hKey, hOrg]
  · intro st apiKey rk1 rk2 rid1 rid2 hS
    simp [authenticateRequestInner, hS]

/-- C4 amended witness: cloud unknown-router rejection and sidecar
independence at concrete states. -/
theorem C4_amended_router_not_found_witness :
    authenticateRequestInner cloudState (String.toList "Bearer goodkey")
      (some .Router) (some "ghost") = .error .RouterNotFound
    ∧ authenticateRequestInner sidecarState (String.toList "Bearer sk-local")
        (some .Router) (some "ghost") =
      authenticateRequestInner sidecarState (String.toList "Bearer sk-local")
        (some .UnifiedApi) none :=
  ⟨C4_amended_router_not_found.1 cloudState (String.toList "Bearer goodkey")
      "ghost" key1 rfl rfl rfl,
   C4_amended_router_not_found.2 sidecarState (String.toList "Bearer sk-local")
      (some .Router) (some .UnifiedApi) (some "ghost") none rfl⟩

/-- A list without any occurrence of the pattern passes through
`removeAll` unchanged. -/
theorem removeAll_id_of_not_contains (pat : List Char) :
    ∀ s : List Char, containsSeq pat s = false → removeAll pat s = s := by
  intro s
  induction s with
  | nil => intro _; rfl
  | cons c cs ih =>
    intro h
    simp only [containsSeq, Bool.or_eq_false_iff] at h
    obtain ⟨h1, h2⟩ := h
    simp only [removeAll, removeAllAux, h1, Bool.false_and, if_false]
    exact congrArg (c :: ·) (ih h2)

/-- Skipping exactly the length of a leading segment lands the scanner
right after it. -/
theorem removeAllAux_skip (pat : List Char) :
    ∀ t s : List Char, removeAllAux pat (t ++ s) t.length = removeAllAux pat s 0 := by
  intro t
  induction t with
  | nil => intro s; rfl
  | cons a t2 ih =>
    intro s
    simpa only [List.cons_append, List.length_cons, removeAllAux] using ih s

/-- Every list is a leading segment of itself extended. -/
theorem leadsWith_append (t s : List Char) : leadsWith t (t ++ s) = true := by
  induction t with
  | nil => rfl
  | cons a t2 ih => simp [leadsWith, ih]

/-- The scanner consumes one leading occurrence of a non-empty pattern
and continues on the remainder. -/
theorem removeAll_strips_leading (pat s : List Char) (h : pat ≠ []) :
    removeAll pat (pat ++ s) = removeAll pat s := by
  cases pat with
  | nil => exact absurd rfl h
  | cons p ps =>
    have h1 := leadsWith_append (p :: ps) s
    simp only [List.cons_append] at h1
    simp only [removeAll, List.cons_append, removeAllAux, List.append_eq, h1,
      List.isEmpty_cons, Bool.not_false, Bool.and_true, if_true, List.length_cons,
      Nat.succ_sub_one]
    exact removeAllAux_skip (p :: ps) ps s

/-- C3 counterexample: the gate hashes the header value with every
occurrence of the substring removed, so a key body containing the
substring is altered, contrary to the claim that only one leading
prefix is stripped. -/
theorem C3_counterexample_inner_bearer_removed :
    authStripCredential (String.toList "Bearer abcBearer def") ≠
      String.toList "abcBearer def"
    ∧ authStripCredential (String.toList "Bearer abcBearer def") =
      String.toList "abcdef" :=
  ⟨by decide, by decide⟩

/-- C3 amended: the credential hashed by the gate is the header value
with every occurrence of the substring removed (Rust str::replace); in
particular a value with no occurrence is unchanged, and one leading
prefix followed by an occurrence-free remainder yields exactly that
remainder. -/
theorem C3_amended_replace_removes_every_occurrence (s : List Char)
    (hNo : containsSeq (String.toList "Bearer ") s = false) :
    authStripCredential s = s
    ∧ authStripCredential (String.toList "Bearer " ++ s) = s := by
  constructor
  · exact removeAll_id_of_not_contains _ s hNo
  · show removeAll (String.toList "Bearer ") (String.toList "Bearer " ++ s) = s
    rw [removeAll_strips_leading _ _ (by decide)]
    exact removeAll_id_of_not_contains _ s hNo

/-- C3 amended witness: a concrete occurrence-free key body. -/
theorem C3_amended_replace_removes_every_occurrence_witness :
    authStripCredential (String.toList "sk-123") = String.toList "sk-123"
    ∧ authStripCredential (String.toList "Bearer " ++ String.toList "sk-123") =
      String.toList "sk-123" :=
  C3_amended_replace_removes_every_occurrence (String.toList "sk-123") (by decide)

/-- C8: with the cache active, two consecutive identical POSTs carrying
the same max-age directive, the second within the TTL, produce MISS then
HIT, and the second response body is byte-equal to the first. -/
theorem C8_cache_miss_then_hit (upstream : CReq → Resp) (defaultTtl : Nat)
    (scope : CacheScope) (store0 : CacheStore) (t0 t1 : Nat) (req : CReq) (n : Nat)
    (hDir : req.cacheControlMaxAge = some n)
    (hMiss : cacheLookup store0 t0 (fingerprint scope req) = none)
    (hOk : 200 ≤ (upstream req).status ∧ (upstream req).status < 300)
    (hWithin : t1 - t0 ≤ n) :
    getHeader (cacheStep upstream defaultTtl scope store0 t0 req).1
      "helicone-cache" = some "MISS"
    ∧ getHeader (cacheStep upstream defaultTtl scope
        (cacheStep upstream defaultTtl scope store0 t0 req).2 t1 req).1
      "helicone-cache" = some "HIT"
    ∧ (cacheStep upstream defaultTtl scope
        (cacheStep upstream defaultTtl scope store0 t0 req).2 t1 req).1.body
      = (cacheStep upstream defaultTtl scope store0 t0 req).1.body := by
  have h1 : cacheStep upstream defaultTtl scope store0 t0 req =
      (addHeader (upstream req) "helicone-cache" "MISS",
       (fingerprint scope req,
        { status := (upstream req).status, headers := (upstream req).headers,
          body := (upstream req).body, storedAt := t0, ttl := n }) :: store0) := by
    simp only [cacheStep, hMiss, hDir]
    rw [if_pos hOk]
  have h2 : cacheStep upstream defaultTtl scope
      ((fingerprint scope req,
        { status := (upstream req).status, headers := (upstream req).headers,
          body := (upstream req).body, storedAt := t0, ttl := n }) :: store0) t1 req =
      (addHeader
        { status := (upstream req).status, headers := (upstream req).headers,
          body := (upstream req).body } "helicone-cache" "HIT",
       (fingerprint scope req,
        { status := (upstream req).status, headers := (upstream req).headers,
          body := (upstream req).body, storedAt := t0, ttl := n }) :: store0) := by
    simp only [cacheStep, cacheLookup, storeFind, if_pos]
    rw [if_pos (show t1 - t0 ≤ n from hWithin)]
  refine ⟨?_, ?_, ?_⟩
  · rw [h1]
    simp [getHeader, addHeader, findHeader]
  · rw [h1]
    simp only
    rw [h2]
    simp [getHeader, addHeader, findHeader]
  · rw [h1]
    simp only
    rw [h2]
    simp [addHeader]

/-- C8 witness: a concrete upstream and request, times 0 and 5, TTL 10. -/
theorem C8_cache_miss_then_hit_witness :
    getHeader (cacheStep
      (fun _ => { status := 200, headers := [("content-type", "application/json")], body := [1, 2, 3] })
      3600 (CacheScope.router "my-router" none) [] 0
      { method := "POST", path := "/chat/completions", headers := [], body := [7],
        cacheControlMaxAge := some 10 }).1 "helicone-cache" = some "MISS"
    ∧ getHeader (cacheStep
      (fun _ => { status := 200, headers := [("content-type", "application/json")], body := [1, 2, 3] })
      3600 (CacheScope.router "my-router" none)
      (cacheStep
        (fun _ => { status := 200, headers := [("content-type", "application/json")], body := [1, 2, 3] })
        3600 (CacheScope.router "my-router" none) [] 0
        { method := "POST", path := "/chat/completions", headers := [], body := [7],
          cacheControlMaxAge := some 10 }).2 5
      { method := "POST", path := "/chat/completions", headers := [], body := [7],
        cacheControlMaxAge := some 10 }).1 "helicone-cache" = some "HIT"
    ∧ (cacheStep
      (fun _ => { status := 200, headers := [("content-type", "application/json")], body := [1, 2, 3] })
      3600 (CacheScope.router "my-router" none)
      (cacheStep
        (fun _ => { status := 200, headers := [("content-type", "application/json")], body := [1, 2, 3] })
        3600 (CacheScope.router "my-router" none) [] 0
        { method := "POST", path := "/chat/completions", headers := [], body := [7],
          cacheControlMaxAge := some 10 }).2 5
      { method := "POST", path := "/chat/completions", headers := [], body := [7],
        cacheControlMaxAge := some 10 }).1.body
      = (cacheStep
      (fun _ => { status := 200, headers := [("content-type", "application/json")], body := [1, 2, 3] })
      3600 (CacheScope.router "my-router" none) [] 0
      { method := "POST", path := "/chat/completions", headers := [], body := [7],
        cacheControlMaxAge := some 10 }).1.body :=
  C8_cache_miss_then_hit
    (fun _ => { status := 200, headers := [("content-type", "application/json")], body := [1, 2, 3] })
    3600 (CacheScope.router "my-router" none) [] 0 5
    { method := "POST", path := "/chat/completions", headers := [], body := [7],
      cacheControlMaxAge := some 10 }
    10 rfl rfl (by decide) (by decide)

/-- A provider returned by the weighted draw belongs to the entry list. -/
theorem pickWeighted_mem :
    ∀ (entries : Pool) (r : Nat) (p : Provider),
      pickWeighted entries r = some p → ∃ e ∈ entries, e.provider = p := by
  intro entries
  induction entries with
  | nil => intro r p h; cases h
  | cons e rest ih =>
    intro r p h
    by_cases hr : r < e.weight
    · rw [pickWeighted, if_pos hr] at h
      exact ⟨e, List.mem_cons_self e rest, Option.some.inj h⟩
    · rw [pickWeighted, if_neg hr] at h
      obtain ⟨e2, hmem, hp⟩ := ih (r - e.weight) p h
      exact ⟨e2, List.mem_cons_of_mem e hmem, hp⟩

/-- Selection only ever returns the provider of a Healthy pool entry. -/
theorem select_mem_healthy (pool : Pool) (r : Nat) (p : Provider)
    (h : select pool r = some p) :
    ∃ e ∈ pool, e.provider = p ∧ e.state = .Healthy := by
  unfold select at h
  by_cases ht : totalWeight (healthyEntries pool) = 0
  · rw [if_pos ht] at h; cases h
  · rw [if_neg ht] at h
    obtain ⟨e, hmem, hp⟩ :=
      pickWeighted_mem (healthyEntries pool) (r % totalWeight (healthyEntries pool)) p h
    have hfilter := List.mem_filter.mp hmem
    exact ⟨e, hfilter.1, hp, by simpa using hfilter.2⟩

/-- After a rate-limit signal for provider `p`, no pool entry of `p` is
Healthy. -/
theorem applySignal_not_healthy (pool : Pool) (p : Provider) (d : Nat) :
    ∀ e ∈ applySignal pool p d, e.provider = p → e.state ≠ .Healthy := by
  intro e he hp
  unfold applySignal at he
  obtain ⟨a, _, rfl⟩ := List.mem_map.mp he
  by_cases hap : a.provider = p
  · rw [if_pos hap]
    cases hstate : a.state <;> simp [hstate]
  · rw [if_neg hap] at hp ⊢
    exact absurd hp hap

/-- On the untouched scenario pool the weighted draw returns one of the
two providers, never none. -/
theorem select_scenarioPool (r : Nat) :
    select scenarioPool r = some .openai ∨ select scenarioPool r = some .anthropic := by
  have h1 : healthyEntries scenarioPool = scenarioPool := by decide
  have h2 : totalWeight scenarioPool = 2 := by decide
  rcases Nat.mod_two_eq_zero_or_one r with h | h
  · left
    simp only [select, h1, h2, h]
    decide
  · right
    simp only [select, h1, h2, h]
    decide

/-- While OpenAI is ejected, selection always returns Anthropic: the
healthy remainder of the pool serves every draw. -/
theorem select_ejectedPool (r : Nat) :
    select ejectedPool r = some .anthropic := by
  have h2 : totalWeight (healthyEntries ejectedPool) = 1 := by decide
  simp only [select, h2, Nat.mod_one]
  decide

/-- The monitor turns the 429 signal on the scenario pool into exactly
the ejected pool. -/
theorem applySignal_scenarioPool :
    applySignal scenarioPool .openai 2 = ejectedPool := by decide

/-- One scenario step preserves the reachable-state invariant and
serves the request by exactly one provider. -/
theorem stepReq_scenario (st : SimState) (r : Nat) (h : scenarioInv st) :
    scenarioInv (stepReq st r)
    ∧ (stepReq st r).openaiHits + (stepReq st r).anthropicHits
        = st.openaiHits + st.anthropicHits + 1 := by
  rcases h with ⟨hp, h0⟩ | ⟨hp, h1⟩
  · rcases select_scenarioPool r with hsel | hsel
    · have hstep : stepReq st r =
          { pool := ejectedPool, openaiHits := st.openaiHits + 1,
            anthropicHits := st.anthropicHits } := by
        simp only [stepReq, hp, hsel, applySignal_scenarioPool]
      rw [hstep]
      refine ⟨Or.inr ⟨rfl, by rw [h0]⟩, ?_⟩
      show st.openaiHits + 1 + st.anthropicHits
          = st.openaiHits + st.anthropicHits + 1
      omega
    · have hstep : stepReq st r =
          { st with anthropicHits := st.anthropicHits + 1 } := by
        simp only [stepReq, hp, hsel]
      rw [hstep]
      refine ⟨Or.inl ⟨hp, h0⟩, ?_⟩
      show st.openaiHits + (st.anthropicHits + 1)
          = st.openaiHits + st.anthropicHits + 1
      omega
  · have hsel := select_ejectedPool r
    have hstep : stepReq st r =
        { st with anthropicHits := st.anthropicHits + 1 } := by
      simp only [stepReq, hp, hsel]
    rw [hstep]
    refine ⟨Or.inr ⟨hp, h1⟩, ?_⟩
    show st.openaiHits + (st.anthropicHits + 1)
        = st.openaiHits + st.anthropicHits + 1
    omega

/-- Every run from a reachable state stays reachable and serves every
request by exactly one of the two providers. -/
theorem runReqs_scenario (rands : List Nat) :
    ∀ st : SimState, scenarioInv st →
      scenarioInv (runReqs st rands)
      ∧ (runReqs st rands).openaiHits + (runReqs st rands).anthropicHits
          = st.openaiHits + st.anthropicHits + rands.length := by
  induction rands with
  | nil => intro st h; exact ⟨h, by simp [runReqs]⟩
  | cons r rs ih =>
    intro st h
    obtain ⟨hinv, hsum⟩ := stepReq_scenario st r h
    obtain ⟨hinv2, hsum2⟩ := ih (stepReq st r) hinv
    refine ⟨hinv2, ?_⟩
    show (runReqs (stepReq st r) rs).openaiHits
        + (runReqs (stepReq st r) rs).anthropicHits
        = st.openaiHits + st.anthropicHits + (r :: rs).length
    rw [hsum2, hsum, List.length_cons]
    omega

/-- C9: while a provider is Ejected it is never returned by selection;
the re-admit step leaves a live deadline untouched and turns a due one
back to Healthy; while OpenAI is ejected, selection always returns
Anthropic; and in the sequential scenario of the rate-limit test (two
equally weighted providers, the throttled one answering 429 and being
ejected past the window) every request of any run is served, at most
one by the throttled provider and all the rest by the other. -/
theorem C9_ejected_provider_never_selected :
    (∀ (pool : Pool) (p : Provider) (u : Nat),
        (∀ e ∈ pool, e.provider = p → e.state = .Ejected u) →
        ∀ r : Nat, select pool r ≠ some p)
    ∧ (∀ (e : PoolEntry) (now u : Nat), e.state = .Ejected u →
        (now < u → readmitEntry now e = e)
        ∧ (u ≤ now → (readmitEntry now e).state = .Healthy))
    ∧ (∀ r : Nat, select ejectedPool r = some .anthropic)
    ∧ (∀ rands : List Nat,
        (runReqs scenarioStart rands).openaiHits ≤ 1
        ∧ (runReqs scenarioStart rands).openaiHits
            + (runReqs scenarioStart rands).anthropicHits = rands.length
        ∧ rands.length - 1 ≤ (runReqs scenarioStart rands).anthropicHits) := by
  refine ⟨?_, ?_, select_ejectedPool, ?_⟩
  · intro pool p u hall r hcontra
    obtain ⟨e, hmem, hp, hh⟩ := select_mem_healthy pool r p hcontra
    rw [hall e hmem hp] at hh
    cases hh
  · intro e now u hst
    constructor
    · intro hlt
      simp [readmitEntry, hst, Nat.not_le.mpr hlt]
    · intro hle
      simp [readmitEntry, hst, hle]
  · intro rands
    obtain ⟨hinv, hsum⟩ :=
      runReqs_scenario rands scenarioStart (Or.inl ⟨rfl, rfl⟩)
    have hle : (runReqs scenarioStart rands).openaiHits ≤ 1 := by
      rcases hinv with ⟨_, h0⟩ | ⟨_, h1⟩
      · rw [h0]; exact Nat.zero_le 1
      · rw [h1]
    have e0 : scenarioStart.openaiHits = 0 := rfl
    have e1 : scenarioStart.anthropicHits = 0 := rfl
    rw [e0, e1] at hsum
    refine ⟨hle, ?_, ?_⟩ <;> omega

/-- C9 witness: a pool with OpenAI ejected until instant 5 never yields
OpenAI, the re-admit step keeps it ejected at instant 3 and frees it at
instant 7, and the post-ejection scenario pool serves draw 4 via
Anthropic. -/
theorem C9_ejected_provider_never_selected_witness :
    select [⟨.openai, 1, .Ejected 5⟩, ⟨.anthropic, 1, .Healthy⟩] 0 ≠ some .openai
    ∧ readmitEntry 3 ⟨.openai, 1, .Ejected 5⟩ = ⟨.openai, 1, .Ejected 5⟩
    ∧ (readmitEntry 7 ⟨.openai, 1, .Ejected 5⟩).state = .Healthy
    ∧ select ejectedPool 4 = some .anthropic :=
  ⟨C9_ejected_provider_never_selected.1
      [⟨.openai, 1, .Ejected 5⟩, ⟨.anthropic, 1, .Healthy⟩] .openai 5 (by decide) 0,
   (C9_ejected_provider_never_selected.2.1 ⟨.openai, 1, .Ejected 5⟩ 3 5 rfl).1 (by decide),
   (C9_ejected_provider_never_selected.2.1 ⟨.openai, 1, .Ejected 5⟩ 7 5 rfl).2 (by decide),
   C9_ejected_provider_never_selected.2.2.1 4⟩
